import Mathlib

/-!
# Verification of the inventory / order-management backend

Shallow embedding of the core of `backend/server.py`: the catalog store,
the stock ledger, the order engine (purchase / sales order creation), the
cash ledger and the dashboard aggregation, together with proofs of the
spec's testable properties.

Modelling conventions:
* MongoDB collections become Lean lists kept in insertion order; `find_one`
  is first-match lookup, `insert_one` appends, `update_one` updates the
  first matching record (with an explicit `upsert` flag mirroring the
  driver call), `delete_one` removes the first match.
* Python `float` money amounts are modelled as `Rat`; integer quantities
  (which may go negative) as `Int`; timestamps as `Nat` values passed in
  by the caller (one `now` per request, as the handler's clock reads are
  not invariant-bearing).
* Generated identifiers (`uuid` based) are passed as explicit arguments.
* A handler is a function from the database state and request data to
  `Except (ApiError × DB) (DB × result)`.  An exception raised partway
  through a handler aborts with the database as of that point, so the
  error case carries the state at raise time: `state unchanged on
  failure` is a theorem about where the raises sit relative to the
  writes, not something built into the encoding.
-/

deriving instance DecidableEq for Except

/-- A user document / authenticated caller (`users` collection). -/
structure User where
  user_id : String
  email : String
  name : String
  role : String
deriving DecidableEq

/-- A category document (`categories` collection). -/
structure Category where
  category_id : String
  name : String
  description : Option String
deriving DecidableEq

/-- A product-type document (`product_types` collection). -/
structure ProductType where
  type_id : String
  name : String
  category_id : String
deriving DecidableEq

/-- A product document (`products` collection). -/
structure Product where
  product_id : String
  sku : String
  name : String
  category_id : String
  type_id : String
  status : String
deriving DecidableEq

/-- A supplier document (`suppliers` collection); only the fields the
claims touch are carried. -/
structure Supplier where
  supplier_id : String
  name : String
deriving DecidableEq

/-- A customer document (`customers` collection). -/
structure Customer where
  customer_id : String
  name : String
deriving DecidableEq

/-- An inventory document (`inventory` collection): one stock record. -/
structure InventoryRecord where
  product_id : String
  quantity : Int
  last_updated : Nat
deriving DecidableEq

/-- An order line item, the shape shared by `PurchaseOrderItem` and
`SalesOrderItem` in the source: clients supply `product_id`, `quantity`,
`unit_price` and a `total` field; the engine recomputes `total` and
fills `product_name`. -/
structure OrderItem where
  product_id : String
  product_name : Option String
  quantity : Int
  unit_price : Rat
  total : Rat
deriving DecidableEq

/-- A stored purchase-order document (`purchase_orders` collection). -/
structure PurchaseOrder where
  po_id : String
  supplier_id : String
  date : Nat
  items : List OrderItem
  total_amount : Rat
  payment_status : String
  paid_amount : Rat
  created_by : String
  created_at : Nat
deriving DecidableEq

/-- A stored sales-order document (`sales_orders` collection). -/
structure SalesOrder where
  order_id : String
  customer_id : Option String
  date : Nat
  order_type : String
  items : List OrderItem
  total_amount : Rat
  payment_status : String
  paid_amount : Rat
  created_by : String
  created_at : Nat
deriving DecidableEq

/-- A cash-ledger document (`transactions` collection). -/
structure Transaction where
  transaction_id : String
  date : Nat
  type : String
  category : String
  amount : Rat
  description : Option String
  related_to : Option String
  created_by : String
  created_at : Nat
deriving DecidableEq

/-- The whole database state: one list per MongoDB collection, in
insertion order. -/
structure DB where
  users : List User
  categories : List Category
  product_types : List ProductType
  products : List Product
  suppliers : List Supplier
  customers : List Customer
  inventory : List InventoryRecord
  purchase_orders : List PurchaseOrder
  sales_orders : List SalesOrder
  transactions : List Transaction
deriving DecidableEq

/-- The empty database. -/
def emptyDB : DB := ⟨[], [], [], [], [], [], [], [], [], []⟩

/-- Errors raised by the handlers (`HTTPException`s): the 403
`Insufficient permissions` raise of `require_role`, a 400 with its
`detail` string, and a 404 with its `detail` string. -/
inductive ApiError where
  | insufficientPermissions : ApiError
  | badRequest : String → ApiError
  | notFound : String → ApiError
deriving DecidableEq

/-- Request body of `POST /api/categories` (`CategoryCreate`). -/
structure CategoryCreate where
  name : String
  description : Option String
deriving DecidableEq

/-- Request body of `POST /api/product-types` (`ProductTypeCreate`). -/
structure ProductTypeCreate where
  name : String
  category_id : String
deriving DecidableEq

/-- Request body of `POST /api/products` (`ProductCreate`). -/
structure ProductCreate where
  sku : String
  name : String
  category_id : String
  type_id : String
  status : String
deriving DecidableEq

/-- Request body of `POST /api/purchase-orders` (`PurchaseOrderCreate`). -/
structure PurchaseOrderCreate where
  supplier_id : String
  date : Nat
  items : List OrderItem
deriving DecidableEq

/-- Request body of `POST /api/sales-orders` (`SalesOrderCreate`). -/
structure SalesOrderCreate where
  customer_id : Option String
  date : Nat
  order_type : String
  items : List OrderItem
deriving DecidableEq

/-- `require_role(user, allowed_roles)`: raise 403 unless
`user.role in allowed_roles`. -/
def require_role (user : User) (allowed_roles : List String) : Except ApiError Unit :=
  if user.role ∈ allowed_roles then Except.ok () else Except.error ApiError.insufficientPermissions

/-- `db.inventory.update_one({'product_id': pid}, {'$inc': {'quantity': delta},
'$set': {'last_updated': now}}, upsert)`: update the first record with this
product id; when none matches, insert a record whose quantity is the
increment iff `upsert` is set. -/
def inventoryAdjust (pid : String) (delta : Int) (now : Nat) (upsert : Bool) :
    List InventoryRecord → List InventoryRecord
  | [] => if upsert then [⟨pid, delta, now⟩] else []
  | r :: rest =>
    if r.product_id == pid then
      { r with quantity := r.quantity + delta, last_updated := now } :: rest
    else
      r :: inventoryAdjust pid delta now upsert rest

/-- The stock-ledger read used by the sales handler and the spec's
`getQuantity`: `inventory['quantity'] if inventory else 0` over
`find_one({'product_id': pid})`. -/
def getQuantity : List InventoryRecord → String → Int
  | [], _ => 0
  | r :: rest, pid => if r.product_id == pid then r.quantity else getQuantity rest pid

/-- Whether a stock record for the product id exists. -/
def hasRecord : List InventoryRecord → String → Bool
  | [], _ => false
  | r :: rest, pid => r.product_id == pid || hasRecord rest pid

/-- `product['name'] if product else item.product_id`: the display string
used in the insufficient-stock error detail. -/
def displayName (db : DB) (pid : String) : String :=
  match db.products.find? (fun p => p.product_id == pid) with
  | some p => p.name
  | none => pid

/-- The `detail` string of the 400 raised on insufficient stock:
`f"Insufficient stock for {name}. Available: {current_stock}"`. -/
def insufficientStockMsg (db : DB) (pid : String) (available : Int) : String :=
  "Insufficient stock for " ++ displayName db pid ++ ". Available: " ++ toString available

/-- The stock-availability loop at the top of `create_sales_order`: walk
the items in order and raise on the first whose current stock is below
its quantity. -/
def stockCheckError (db : DB) : List OrderItem → Option ApiError
  | [] => none
  | i :: rest =>
    let current_stock := getQuantity db.inventory i.product_id
    if current_stock < i.quantity then
      some (ApiError.badRequest (insufficientStockMsg db i.product_id current_stock))
    else
      stockCheckError db rest

/-- The item list stored on an order: product names resolved from the
catalog, line totals recomputed as `quantity * unit_price` (the
client-supplied `total` is discarded). -/
def itemsWithNames (db : DB) (items : List OrderItem) : List OrderItem :=
  items.map (fun i =>
    { i with
      product_name := (db.products.find? (fun p => p.product_id == i.product_id)).map (fun p => p.name)
      total := (i.quantity : Rat) * i.unit_price })

/-- `sum(item.quantity * item.unit_price for item in items)`. -/
def orderTotal (items : List OrderItem) : Rat :=
  (items.map (fun i => (i.quantity : Rat) * i.unit_price)).sum

/-- `POST /api/products` (`create_product`): role gate, duplicate-SKU
check, then insert the product and a zero-quantity inventory record. -/
def create_product (db : DB) (user : User) (product_data : ProductCreate)
    (product_id : String) (now : Nat) : Except (ApiError × DB) (DB × Product) :=
  match require_role user ["manager", "admin"] with
  | Except.error e => Except.error (e, db)
  | Except.ok _ =>
    match db.products.find? (fun p => p.sku == product_data.sku) with
    | some _ => Except.error (ApiError.badRequest "SKU already exists", db)
    | none =>
      let prod : Product :=
        { product_id := product_id, sku := product_data.sku, name := product_data.name,
          category_id := product_data.category_id, type_id := product_data.type_id,
          status := product_data.status }
      let db1 : DB := { db with products := db.products ++ [prod] }
      let db2 : DB := { db1 with inventory := db1.inventory ++ [⟨product_id, 0, now⟩] }
      Except.ok (db2, prod)

/-- `POST /api/purchase-orders` (`create_purchase_order`): role gate,
compute totals, resolve names, insert the order, `$inc` inventory per
item with `upsert=True`, append one expense transaction. -/
def create_purchase_order (db : DB) (user : User) (order_data : PurchaseOrderCreate)
    (po_id txn_id : String) (now : Nat) : Except (ApiError × DB) (DB × PurchaseOrder) :=
  match require_role user ["manager", "admin"] with
  | Except.error e => Except.error (e, db)
  | Except.ok _ =>
    let total_amount := orderTotal order_data.items
    let po : PurchaseOrder :=
      { po_id := po_id, supplier_id := order_data.supplier_id, date := order_data.date,
        items := itemsWithNames db order_data.items, total_amount := total_amount,
        payment_status := "unpaid", paid_amount := 0,
        created_by := user.user_id, created_at := now }
    let db1 : DB := { db with purchase_orders := db.purchase_orders ++ [po] }
    let inv2 := order_data.items.foldl
      (fun inv i => inventoryAdjust i.product_id i.quantity now true inv) db1.inventory
    let db2 : DB := { db1 with inventory := inv2 }
    let txn : Transaction :=
      { transaction_id := txn_id, date := order_data.date, type := "expense",
        category := "purchase", amount := total_amount,
        description := some ("Purchase order " ++ po_id), related_to := some po_id,
        created_by := user.user_id, created_at := now }
    let db3 : DB := { db2 with transactions := db2.transactions ++ [txn] }
    Except.ok (db3, po)

/-- `POST /api/sales-orders` (`create_sales_order`): stock-availability
loop (no role gate), compute totals, resolve names, insert the order,
`$inc` inventory by `-quantity` per item (no upsert flag), append one
income transaction. -/
def create_sales_order (db : DB) (user : User) (order_data : SalesOrderCreate)
    (order_id txn_id : String) (now : Nat) : Except (ApiError × DB) (DB × SalesOrder) :=
  match stockCheckError db order_data.items with
  | some e => Except.error (e, db)
  | none =>
    let total_amount := orderTotal order_data.items
    let so : SalesOrder :=
      { order_id := order_id, customer_id := order_data.customer_id, date := order_data.date,
        order_type := order_data.order_type, items := itemsWithNames db order_data.items,
        total_amount := total_amount, payment_status := "unpaid", paid_amount := 0,
        created_by := user.user_id, created_at := now }
    let db1 : DB := { db with sales_orders := db.sales_orders ++ [so] }
    let inv2 := order_data.items.foldl
      (fun inv i => inventoryAdjust i.product_id (-i.quantity) now false inv) db1.inventory
    let db2 : DB := { db1 with inventory := inv2 }
    let txn : Transaction :=
      { transaction_id := txn_id, date := order_data.date, type := "income",
        category := "sales", amount := total_amount,
        description := some ("Sales order " ++ order_id), related_to := some order_id,
        created_by := user.user_id, created_at := now }
    let db3 : DB := { db2 with transactions := db2.transactions ++ [txn] }
    Except.ok (db3, so)

/-- `POST /api/categories` (`create_category`): role gate, insert. -/
def create_category (db : DB) (user : User) (category_data : CategoryCreate)
    (category_id : String) : Except (ApiError × DB) (DB × Category) :=
  match require_role user ["manager", "admin"] with
  | Except.error e => Except.error (e, db)
  | Except.ok _ =>
    let c : Category := ⟨category_id, category_data.name, category_data.description⟩
    Except.ok ({ db with categories := db.categories ++ [c] }, c)

/-- Update the first element satisfying `p` (MongoDB `update_one`). -/
def updateFirst (p : α → Bool) (f : α → α) : List α → List α
  | [] => []
  | x :: xs => if p x then f x :: xs else x :: updateFirst p f xs

/-- Remove the first element satisfying `p` (MongoDB `delete_one`). -/
def removeFirst (p : α → Bool) : List α → List α
  | [] => []
  | x :: xs => if p x then xs else x :: removeFirst p xs

/-- `PUT /api/categories/{id}` (`update_category`): role gate, update the
matching category or 404. -/
def update_category (db : DB) (user : User) (category_id : String)
    (category_data : CategoryCreate) : Except (ApiError × DB) (DB × Category) :=
  match require_role user ["manager", "admin"] with
  | Except.error e => Except.error (e, db)
  | Except.ok _ =>
    match db.categories.find? (fun c => c.category_id == category_id) with
    | none => Except.error (ApiError.notFound "Category not found", db)
    | some c =>
      let upd := fun (x : Category) =>
        { x with name := category_data.name, description := category_data.description }
      let cats := updateFirst (fun x => x.category_id == category_id) upd db.categories
      Except.ok ({ db with categories := cats }, upd c)

/-- `DELETE /api/categories/{id}` (`delete_category`): role gate, delete
the matching category or 404. -/
def delete_category (db : DB) (user : User) (category_id : String) :
    Except (ApiError × DB) DB :=
  match require_role user ["manager", "admin"] with
  | Except.error e => Except.error (e, db)
  | Except.ok _ =>
    if db.categories.any (fun c => c.category_id == category_id) then
      let cats := removeFirst (fun c => c.category_id == category_id) db.categories
      Except.ok { db with categories := cats }
    else
      Except.error (ApiError.notFound "Category not found", db)

/-- `POST /api/product-types` (`create_product_type`): role gate, insert. -/
def create_product_type (db : DB) (user : User) (type_data : ProductTypeCreate)
    (type_id : String) : Except (ApiError × DB) (DB × ProductType) :=
  match require_role user ["manager", "admin"] with
  | Except.error e => Except.error (e, db)
  | Except.ok _ =>
    let t : ProductType := ⟨type_id, type_data.name, type_data.category_id⟩
    Except.ok ({ db with product_types := db.product_types ++ [t] }, t)

/-- `PUT /api/products/{id}` (`update_product`): role gate, update the
matching product or 404. -/
def update_product (db : DB) (user : User) (product_id : String)
    (product_data : ProductCreate) : Except (ApiError × DB) (DB × Product) :=
  match require_role user ["manager", "admin"] with
  | Except.error e => Except.error (e, db)
  | Except.ok _ =>
    match db.products.find? (fun p => p.product_id == product_id) with
    | none => Except.error (ApiError.notFound "Product not found", db)
    | some p =>
      let upd := fun (x : Product) =>
        { x with sku := product_data.sku, name := product_data.name,
                 category_id := product_data.category_id, type_id := product_data.type_id,
                 status := product_data.status }
      let prods := updateFirst (fun x => x.product_id == product_id) upd db.products
      Except.ok ({ db with products := prods }, upd p)

/-- `GET /api/users` (`get_users`): admin gate, list users. -/
def get_users (db : DB) (user : User) : Except ApiError (List User) :=
  match require_role user ["admin"] with
  | Except.error e => Except.error e
  | Except.ok _ => Except.ok db.users

/-- `PUT /api/users/{id}/role` (`update_user_role`): admin gate, role
validity check, update the matching user or 404. -/
def update_user_role (db : DB) (user : User) (user_id : String) (role : String) :
    Except (ApiError × DB) DB :=
  match require_role user ["admin"] with
  | Except.error e => Except.error (e, db)
  | Except.ok _ =>
    if role ∈ (["employee", "manager", "admin"] : List String) then
      if db.users.any (fun u => u.user_id == user_id) then
        let us := updateFirst (fun u => u.user_id == user_id) (fun u => { u with role := role }) db.users
        Except.ok { db with users := us }
      else
        Except.error (ApiError.notFound "User not found", db)
    else
      Except.error (ApiError.badRequest "Invalid role", db)

/-- The response of `GET /api/dashboard/stats`. -/
structure DashboardStats where
  total_revenue : Rat
  total_expenses : Rat
  total_profit : Rat
  total_orders : Nat
  pending_orders : Nat
  low_stock_products : Nat
  total_customers : Nat
  total_suppliers : Nat
deriving DecidableEq

/-- `GET /api/dashboard/stats` (`get_dashboard_stats`): revenue and
expenses sum the amounts of `find({'type': ...}).to_list(10000)` — at
most the first 10000 matching transactions; order counts query
`sales_orders` only via `count_documents` (no cap); low stock counts
inventory records with `quantity < 10`. -/
def get_dashboard_stats (db : DB) : DashboardStats :=
  let income_txns := (db.transactions.filter (fun t => t.type == "income")).take 10000
  let total_revenue := (income_txns.map (fun t => t.amount)).sum
  let expense_txns := (db.transactions.filter (fun t => t.type == "expense")).take 10000
  let total_expenses := (expense_txns.map (fun t => t.amount)).sum
  { total_revenue := total_revenue
    total_expenses := total_expenses
    total_profit := total_revenue - total_expenses
    total_orders := db.sales_orders.length
    pending_orders := (db.sales_orders.filter (fun o => decide (o.payment_status ≠ "paid"))).length
    low_stock_products := (db.inventory.filter (fun r => decide (r.quantity < 10))).length
    total_customers := db.customers.length
    total_suppliers := db.suppliers.length }

/-! ## Stock-ledger lemmas -/

/-- Sum of the line quantities a given product id contributes to an item
list. -/
def qtySum (items : List OrderItem) (q : String) : Int :=
  ((items.filter (fun i => i.product_id == q)).map (fun i => i.quantity)).sum

theorem getQuantity_adjust_true (pid : String) (d : Int) (now : Nat) (q : String) :
    ∀ inv, getQuantity (inventoryAdjust pid d now true inv) q
      = getQuantity inv q + (if pid = q then d else 0) := by
  intro inv
  induction inv with
  | nil =>
    by_cases h : pid = q <;> simp [inventoryAdjust, getQuantity, h]
  | cons r rest ih =>
    by_cases h : r.product_id = pid
    · by_cases hq : r.product_id = q
      · simp [inventoryAdjust, getQuantity, h, hq, h ▸ hq]
      · have hpq : ¬ pid = q := fun hc => hq (h.trans hc)
        simp [inventoryAdjust, getQuantity, h, hq, hpq]
    · by_cases hq : r.product_id = q
      · have hpq : ¬ pid = q := fun hc => h (hq.trans hc.symm)
        have hqp : ¬ q = pid := fun hc => hpq hc.symm
        simp [inventoryAdjust, getQuantity, h, hq, hpq, hqp]
      · simp [inventoryAdjust, getQuantity, h, hq, ih]

theorem getQuantity_adjust_false (pid : String) (d : Int) (now : Nat) (q : String) :
    ∀ inv, getQuantity (inventoryAdjust pid d now false inv) q
      = getQuantity inv q + (if pid = q ∧ hasRecord inv pid = true then d else 0) := by
  intro inv
  induction inv with
  | nil => simp [inventoryAdjust, getQuantity, hasRecord]
  | cons r rest ih =>
    by_cases h : r.product_id = pid
    · by_cases hq : r.product_id = q
      · simp [inventoryAdjust, getQuantity, hasRecord, h, hq, h ▸ hq]
      · have hpq : ¬ pid = q := fun hc => hq (h.trans hc)
        simp [inventoryAdjust, getQuantity, hasRecord, h, hq, hpq]
    · by_cases hq : r.product_id = q
      · have hpq : ¬ pid = q := fun hc => h (hq.trans hc.symm)
        have hqp : ¬ q = pid := fun hc => hpq hc.symm
        simp [inventoryAdjust, getQuantity, hasRecord, h, hq, hpq, hqp]
      · simp [inventoryAdjust, getQuantity, hasRecord, h, hq, ih]

theorem hasRecord_adjust_false (pid : String) (d : Int) (now : Nat) (q : String) :
    ∀ inv, hasRecord (inventoryAdjust pid d now false inv) q = hasRecord inv q := by
  intro inv
  induction inv with
  | nil => simp [inventoryAdjust, hasRecord]
  | cons r rest ih =>
    by_cases h : r.product_id = pid <;>
      simp [inventoryAdjust, hasRecord, h, ih]

theorem adjust_false_of_not_hasRecord (pid : String) (d : Int) (now : Nat) :
    ∀ inv, hasRecord inv pid = false → inventoryAdjust pid d now false inv = inv := by
  intro inv
  induction inv with
  | nil => intro _; rfl
  | cons r rest ih =>
    intro h
    simp [hasRecord] at h
    simp [inventoryAdjust, h.1, ih h.2]

theorem adjust_true_of_not_hasRecord (pid : String) (d : Int) (now : Nat) :
    ∀ inv, hasRecord inv pid = false →
      inventoryAdjust pid d now true inv = inv ++ [⟨pid, d, now⟩] := by
  intro inv
  induction inv with
  | nil => intro _; rfl
  | cons r rest ih =>
    intro h
    simp [hasRecord] at h
    simp [inventoryAdjust, h.1, ih h.2]

theorem getQuantity_eq_zero_of_not_hasRecord (q : String) :
    ∀ inv, hasRecord inv q = false → getQuantity inv q = 0 := by
  intro inv
  induction inv with
  | nil => intro _; rfl
  | cons r rest ih =>
    intro h
    simp [hasRecord] at h
    simp [getQuantity, h.1, ih h.2]

theorem qtySum_nil (q : String) : qtySum [] q = 0 := rfl

theorem qtySum_cons (i : OrderItem) (items : List OrderItem) (q : String) :
    qtySum (i :: items) q = (if i.product_id = q then i.quantity else 0) + qtySum items q := by
  by_cases h : i.product_id = q
  · simp [qtySum, List.filter_cons, h]
  · simp [qtySum, List.filter_cons, h]

theorem foldl_purchase_quantity (now : Nat) (q : String) :
    ∀ (items : List OrderItem) (inv : List InventoryRecord),
      getQuantity (items.foldl (fun a i => inventoryAdjust i.product_id i.quantity now true a) inv) q
        = getQuantity inv q + qtySum items q := by
  intro items
  induction items with
  | nil => intro inv; simp [qtySum]
  | cons i rest ih =>
    intro inv
    rw [List.foldl_cons, ih, getQuantity_adjust_true, qtySum_cons]
    omega

theorem foldl_sales_hasRecord (now : Nat) (q : String) :
    ∀ (items : List OrderItem) (inv : List InventoryRecord),
      hasRecord (items.foldl (fun a i => inventoryAdjust i.product_id (-i.quantity) now false a) inv) q
        = hasRecord inv q := by
  intro items
  induction items with
  | nil => intro inv; rfl
  | cons i rest ih =>
    intro inv
    rw [List.foldl_cons, ih, hasRecord_adjust_false]

theorem foldl_sales_quantity (now : Nat) (q : String) :
    ∀ (items : List OrderItem) (inv : List InventoryRecord), hasRecord inv q = true →
      getQuantity (items.foldl (fun a i => inventoryAdjust i.product_id (-i.quantity) now false a) inv) q
        = getQuantity inv q - qtySum items q := by
  intro items
  induction items with
  | nil => intro inv _; simp [qtySum]
  | cons i rest ih =>
    intro inv hrec
    rw [List.foldl_cons, ih _ (by rw [hasRecord_adjust_false]; exact hrec),
      getQuantity_adjust_false, qtySum_cons]
    by_cases h : i.product_id = q
    · subst h; simp [hrec]; omega
    · simp [h]

/-! ## Dashboard (claims C8, C10) -/

theorem filter_replicate_of_pos {α : Type} (p : α → Bool) (a : α) (h : p a = true) :
    ∀ n, (List.replicate n a).filter p = List.replicate n a := by
  intro n
  induction n with
  | zero => rfl
  | succ n ih => simp [List.replicate_succ, List.filter_cons, h, ih]

theorem take_replicate_min {α : Type} (a : α) :
    ∀ (m n : Nat), (List.replicate n a).take m = List.replicate (min m n) a := by
  intro m n
  induction n generalizing m with
  | zero => simp
  | succ n ih =>
    cases m with
    | zero => simp
    | succ m => simp [List.replicate_succ, ih, Nat.succ_min_succ]

theorem sum_replicate_rat (x : Rat) : ∀ n, (List.replicate n x).sum = n * x := by
  intro n
  induction n with
  | zero => simp
  | succ n ih =>
    rw [List.replicate_succ, List.sum_cons, ih, Nat.cast_succ]
    ring

/-- Amended C8: the dashboard statistics satisfy
`totalProfit = totalRevenue - totalExpenses` for any state; revenue and
expenses are the sums of the amounts of the first 10000 income
(resp. expense) transactions in insertion order (the handler reads
`to_list(10000)`, so later transactions are dropped); `lowStockCount`
counts stock records with quantity < 10; `pendingOrders` counts sales
orders with payment status ≠ "paid". -/
theorem dashboard_stats_spec (db : DB) :
    (get_dashboard_stats db).total_profit
        = (get_dashboard_stats db).total_revenue - (get_dashboard_stats db).total_expenses
    ∧ (get_dashboard_stats db).total_revenue
        = (((db.transactions.filter (fun t => t.type == "income")).take 10000).map
            (fun t => t.amount)).sum
    ∧ (get_dashboard_stats db).total_expenses
        = (((db.transactions.filter (fun t => t.type == "expense")).take 10000).map
            (fun t => t.amount)).sum
    ∧ (get_dashboard_stats db).low_stock_products
        = (db.inventory.filter (fun r => decide (r.quantity < 10))).length
    ∧ (get_dashboard_stats db).pending_orders
        = (db.sales_orders.filter (fun o => decide (o.payment_status ≠ "paid"))).length :=
  ⟨rfl, rfl, rfl, rfl, rfl⟩

/-- An income transaction of amount 1, used in the C8 counterexample. -/
def incomeTxn : Transaction :=
  ⟨"t0", 0, "income", "sales", 1, none, none, "u0", 0⟩

/-- A ledger holding 10001 income transactions of amount 1. -/
def manyTxnDB : DB := { emptyDB with transactions := List.replicate 10001 incomeTxn }

/-- Counterexample to C8 as stated: with 10001 income transactions of
amount 1 the dashboard reports `totalRevenue = 10000` (the handler reads
at most 10000 transactions), while the sum of all income-transaction
amounts is 10001. -/
theorem dashboard_revenue_cap_counterexample :
    (get_dashboard_stats manyTxnDB).total_revenue = 10000
    ∧ ((manyTxnDB.transactions.filter (fun t => t.type == "income")).map
        (fun t => t.amount)).sum = 10001
    ∧ (get_dashboard_stats manyTxnDB).total_revenue
        ≠ ((manyTxnDB.transactions.filter (fun t => t.type == "income")).map
            (fun t => t.amount)).sum := by
  have hfilter : manyTxnDB.transactions.filter (fun t => t.type == "income")
      = List.replicate 10001 incomeTxn := by
    have : manyTxnDB.transactions = List.replicate 10001 incomeTxn := rfl
    rw [this, filter_replicate_of_pos _ _ rfl]
  have hrev : (get_dashboard_stats manyTxnDB).total_revenue = 10000 := by
    show (((manyTxnDB.transactions.filter (fun t => t.type == "income")).take 10000).map
      (fun t => t.amount)).sum = 10000
    rw [hfilter, take_replicate_min]
    norm_num [List.map_replicate, sum_replicate_rat, incomeTxn]
  have hall : ((manyTxnDB.transactions.filter (fun t => t.type == "income")).map
      (fun t => t.amount)).sum = 10001 := by
    rw [hfilter]
    norm_num [List.map_replicate, sum_replicate_rat, incomeTxn]
  refine ⟨hrev, hall, ?_⟩
  rw [hrev, hall]
  norm_num

/-- C10: the dashboard order counters are computed from the sales-order
collection alone: `totalOrders` is the number of sales-order records,
`pendingOrders` the number of sales-order records with payment status
≠ "paid", and replacing the purchase-order collection by anything leaves
the whole statistics response unchanged. -/
theorem dashboard_counts_sales_orders_only (db : DB) (pos : List PurchaseOrder) :
    (get_dashboard_stats db).total_orders = db.sales_orders.length
    ∧ (get_dashboard_stats db).pending_orders
        = (db.sales_orders.filter (fun o => decide (o.payment_status ≠ "paid"))).length
    ∧ get_dashboard_stats { db with purchase_orders := pos } = get_dashboard_stats db :=
  ⟨rfl, rfl, rfl⟩

/-! ## Success shape of the order handlers -/

/-- Destructuring a successful `create_purchase_order`: the committed
order and the resulting state, field by field. -/
theorem create_purchase_order_ok (db : DB) (u : User) (od : PurchaseOrderCreate)
    (po_id txn_id : String) (now : Nat) (db2 : DB) (po : PurchaseOrder)
    (h : create_purchase_order db u od po_id txn_id now = Except.ok (db2, po)) :
    po = { po_id := po_id, supplier_id := od.supplier_id, date := od.date,
           items := itemsWithNames db od.items, total_amount := orderTotal od.items,
           payment_status := "unpaid", paid_amount := 0,
           created_by := u.user_id, created_at := now }
    ∧ db2 = { db with
        purchase_orders := db.purchase_orders ++ [po],
        inventory := od.items.foldl
          (fun a i => inventoryAdjust i.product_id i.quantity now true a) db.inventory,
        transactions := db.transactions ++
          [{ transaction_id := txn_id, date := od.date, type := "expense",
             category := "purchase", amount := orderTotal od.items,
             description := some ("Purchase order " ++ po_id), related_to := some po_id,
             created_by := u.user_id, created_at := now }] } := by
  by_cases hr : u.role ∈ (["manager", "admin"] : List String)
  · simp [create_purchase_order, require_role, hr] at h
    obtain ⟨hpo, hdb⟩ := h
    subst hpo
    subst hdb
    exact ⟨rfl, rfl⟩
  · simp [create_purchase_order, require_role, hr] at h

/-- Destructuring a successful `create_sales_order`. -/
theorem create_sales_order_ok (db : DB) (u : User) (od : SalesOrderCreate)
    (order_id txn_id : String) (now : Nat) (db2 : DB) (so : SalesOrder)
    (h : create_sales_order db u od order_id txn_id now = Except.ok (db2, so)) :
    stockCheckError db od.items = none
    ∧ so = { order_id := order_id, customer_id := od.customer_id, date := od.date,
             order_type := od.order_type, items := itemsWithNames db od.items,
             total_amount := orderTotal od.items, payment_status := "unpaid",
             paid_amount := 0, created_by := u.user_id, created_at := now }
    ∧ db2 = { db with
        sales_orders := db.sales_orders ++ [so],
        inventory := od.items.foldl
          (fun a i => inventoryAdjust i.product_id (-i.quantity) now false a) db.inventory,
        transactions := db.transactions ++
          [{ transaction_id := txn_id, date := od.date, type := "income",
             category := "sales", amount := orderTotal od.items,
             description := some ("Sales order " ++ order_id), related_to := some order_id,
             created_by := u.user_id, created_at := now }] } := by
  cases hsc : stockCheckError db od.items with
  | some e => simp [create_sales_order, hsc] at h
  | none =>
    simp [create_sales_order, hsc] at h
    obtain ⟨hso, hdb⟩ := h
    subst hso
    subst hdb
    exact ⟨rfl, rfl, rfl⟩

/-! ## Stock deltas of committed orders (claims C3, C7) -/

/-- A manager-role caller used in concrete scenarios. -/
def mgrUser : User := ⟨"u1", "m@example.com", "M", "manager"⟩

/-- A state holding one stock record: 10 units of product `p1`. -/
def stockDB : DB := { emptyDB with inventory := [⟨"p1", 10, 0⟩] }

/-- Amended C3: a committed purchase order raises each product's stock by
the sum of that product's line quantities (records are created when
absent).  A committed sales order lowers the stock of each product that
has a stock record by the sum of that product's line quantities; a
product with no stock record gets none (its quantity stays 0), because
the sales-path update carries no upsert flag.  (Such an item passes the
sufficiency check only when its quantity is non-positive.) -/
theorem order_stock_deltas :
    (∀ db u od po_id txn_id now db2 po q,
       create_purchase_order db u od po_id txn_id now = Except.ok (db2, po) →
       getQuantity db2.inventory q = getQuantity db.inventory q + qtySum od.items q)
    ∧ (∀ db u sd oid txn_id now db2 so q,
       create_sales_order db u sd oid txn_id now = Except.ok (db2, so) →
       (hasRecord db.inventory q = true →
          getQuantity db2.inventory q = getQuantity db.inventory q - qtySum sd.items q)
       ∧ (hasRecord db.inventory q = false →
          hasRecord db2.inventory q = false ∧ getQuantity db2.inventory q = 0)) := by
  constructor
  · intro db u od po_id txn_id now db2 po q h
    obtain ⟨-, hdb⟩ := create_purchase_order_ok db u od po_id txn_id now db2 po h
    subst hdb
    exact foldl_purchase_quantity now q od.items db.inventory
  · intro db u sd oid txn_id now db2 so q h
    obtain ⟨-, -, hdb⟩ := create_sales_order_ok db u sd oid txn_id now db2 so h
    subst hdb
    refine ⟨fun hrec => foldl_sales_quantity now q sd.items db.inventory hrec, fun hrec => ?_⟩
    have habs : hasRecord (sd.items.foldl
        (fun a i => inventoryAdjust i.product_id (-i.quantity) now false a) db.inventory) q
        = false := by
      rw [foldl_sales_hasRecord]; exact hrec
    exact ⟨habs, getQuantity_eq_zero_of_not_hasRecord q _ habs⟩

/-- The state after committing a 4-unit purchase of `p1` against `stockDB`. -/
def purchasedPO : PurchaseOrder :=
  ⟨"po1", "s1", 3, [⟨"p1", none, 4, 2, 8⟩], 8, "unpaid", 0, "u1", 7⟩

/-- Resulting state of that purchase. -/
def purchasedDB : DB :=
  { stockDB with
    inventory := [⟨"p1", 14, 7⟩],
    purchase_orders := [purchasedPO],
    transactions := [⟨"t1", 3, "expense", "purchase", 8,
      some "Purchase order po1", some "po1", "u1", 7⟩] }

/-- The state after committing a 4-unit sale of `p1` against `stockDB`. -/
def soldSO : SalesOrder :=
  ⟨"so1", none, 3, "normal", [⟨"p1", none, 4, 2, 8⟩], 8, "unpaid", 0, "u1", 7⟩

/-- Resulting state of that sale. -/
def soldDB : DB :=
  { stockDB with
    inventory := [⟨"p1", 6, 7⟩],
    sales_orders := [soldSO],
    transactions := [⟨"t1", 3, "income", "sales", 8,
      some "Sales order so1", some "so1", "u1", 7⟩] }

unseal Rat.mul Rat.add in
theorem order_stock_deltas_witness :
    getQuantity purchasedDB.inventory "p1"
      = getQuantity stockDB.inventory "p1" + qtySum [⟨"p1", none, 4, 2, 0⟩] "p1"
    ∧ getQuantity soldDB.inventory "p1"
      = getQuantity stockDB.inventory "p1" - qtySum [⟨"p1", none, 4, 2, 0⟩] "p1" :=
  ⟨order_stock_deltas.1 stockDB mgrUser ⟨"s1", 3, [⟨"p1", none, 4, 2, 0⟩]⟩ "po1" "t1" 7
      purchasedDB purchasedPO "p1" (by decide),
   (order_stock_deltas.2 stockDB mgrUser ⟨none, 3, "normal", [⟨"p1", none, 4, 2, 0⟩]⟩
      "so1" "t1" 7 soldDB soldSO "p1" (by decide)).1 (by decide)⟩

/-- A catalog holding product `p1` (`Widget`) and nothing else — in
particular no stock record for it. -/
def widgetOnlyDB : DB :=
  { emptyDB with products := [⟨"p1", "X1", "Widget", "c1", "t1", "active"⟩] }

/-- A sales order for -3 units of `p1` (the handlers perform no quantity
validation, and `0 < -3` is false, so the sufficiency check passes). -/
def negQtySale : SalesOrderCreate := ⟨none, 0, "normal", [⟨"p1", none, -3, 5, 0⟩]⟩

/-- The sales order committed by `negQtySale`. -/
def negSaleSO : SalesOrder :=
  ⟨"so1", none, 0, "normal", [⟨"p1", some "Widget", -3, 5, -15⟩], -15, "unpaid", 0, "u1", 9⟩

/-- Resulting state of `negQtySale`. -/
def negSaleDB : DB :=
  { widgetOnlyDB with
    sales_orders := [negSaleSO],
    transactions := [⟨"t1", 0, "income", "sales", -15,
      some "Sales order so1", some "so1", "u1", 9⟩] }

unseal Rat.mul Rat.add in
/-- Counterexample to C3 as stated: this sales order commits, yet the
stock of `p1` does not change by `-sum(line.quantity) = 3` — the product
has no stock record and the sales-path update is not an upsert, so the
quantity stays 0 instead of 3. -/
theorem sales_stock_delta_counterexample :
    create_sales_order widgetOnlyDB mgrUser negQtySale "so1" "t1" 9
      = Except.ok (negSaleDB, negSaleSO)
    ∧ getQuantity negSaleDB.inventory "p1" = 0
    ∧ getQuantity widgetOnlyDB.inventory "p1" - qtySum negQtySale.items "p1" = 3
    ∧ getQuantity negSaleDB.inventory "p1"
        ≠ getQuantity widgetOnlyDB.inventory "p1" - qtySum negQtySale.items "p1" := by
  refine ⟨by decide, by decide, by decide, by decide⟩

/-- Amended C7: the purchase-path stock adjustment has upsert semantics —
when no record exists one is created holding the applied delta and the
new timestamp — but the sales-path adjustment does not: it updates an
existing record in place and silently does nothing when the record is
absent.  The second and third conjuncts pin down exactly which update
each committed order applies per item. -/
theorem adjust_upsert_semantics :
    (∀ inv pid d now, hasRecord inv pid = false →
       inventoryAdjust pid d now true inv = inv ++ [⟨pid, d, now⟩]
       ∧ inventoryAdjust pid d now false inv = inv)
    ∧ (∀ db u od po_id txn_id now db2 po,
         create_purchase_order db u od po_id txn_id now = Except.ok (db2, po) →
         db2.inventory = od.items.foldl
           (fun a i => inventoryAdjust i.product_id i.quantity now true a) db.inventory)
    ∧ (∀ db u sd oid txn_id now db2 so,
         create_sales_order db u sd oid txn_id now = Except.ok (db2, so) →
         db2.inventory = sd.items.foldl
           (fun a i => inventoryAdjust i.product_id (-i.quantity) now false a) db.inventory) := by
  refine ⟨fun inv pid d now h => ⟨adjust_true_of_not_hasRecord pid d now inv h,
    adjust_false_of_not_hasRecord pid d now inv h⟩, ?_, ?_⟩
  · intro db u od po_id txn_id now db2 po h
    obtain ⟨-, hdb⟩ := create_purchase_order_ok db u od po_id txn_id now db2 po h
    subst hdb
    rfl
  · intro db u sd oid txn_id now db2 so h
    obtain ⟨-, -, hdb⟩ := create_sales_order_ok db u sd oid txn_id now db2 so h
    subst hdb
    rfl

unseal Rat.mul Rat.add in
theorem adjust_upsert_semantics_witness :
    (inventoryAdjust "p1" 7 3 true [⟨"q9", 5, 0⟩] = [⟨"q9", 5, 0⟩] ++ [⟨"p1", 7, 3⟩]
      ∧ inventoryAdjust "p1" 7 3 false [⟨"q9", 5, 0⟩] = [⟨"q9", 5, 0⟩])
    ∧ purchasedDB.inventory
        = ([⟨"p1", none, 4, 2, 0⟩] : List OrderItem).foldl
            (fun a i => inventoryAdjust i.product_id i.quantity 7 true a) stockDB.inventory :=
  ⟨adjust_upsert_semantics.1 [⟨"q9", 5, 0⟩] "p1" 7 3 (by decide),
   adjust_upsert_semantics.2.1 stockDB mgrUser ⟨"s1", 3, [⟨"p1", none, 4, 2, 0⟩]⟩
     "po1" "t1" 7 purchasedDB purchasedPO (by decide)⟩

/-- A sales order for 0 units of `p1` against an empty inventory: the
sufficiency check passes (`0 < 0` is false) and the order commits. -/
def zeroQtySale : SalesOrderCreate := ⟨none, 0, "normal", [⟨"p1", none, 0, 5, 0⟩]⟩

/-- The sales order committed by `zeroQtySale`. -/
def zeroSaleSO : SalesOrder :=
  ⟨"so1", none, 0, "normal", [⟨"p1", none, 0, 5, 0⟩], 0, "unpaid", 0, "u1", 9⟩

/-- Resulting state of `zeroQtySale`. -/
def zeroSaleDB : DB :=
  { emptyDB with
    sales_orders := [zeroSaleSO],
    transactions := [⟨"t1", 0, "income", "sales", 0,
      some "Sales order so1", some "so1", "u1", 9⟩] }

unseal Rat.mul Rat.add in
/-- Counterexample to C7 as stated: a sales-path stock adjustment with no
existing record creates nothing — the committed order leaves the
inventory collection empty, where the claim requires a record holding
the applied delta (0) and the updated timestamp (9). -/
theorem sales_no_upsert_counterexample :
    create_sales_order emptyDB mgrUser zeroQtySale "so1" "t1" 9
      = Except.ok (zeroSaleDB, zeroSaleSO)
    ∧ zeroSaleDB.inventory = [] :=
  ⟨by decide, rfl⟩

/-! ## Ledger entries of committed orders (claim C4) -/

/-- C4: every committed order appends exactly one transaction to the cash
ledger, whose amount is the order's total, whose direction and category
match the order kind (purchase → expense/purchase, sales →
income/sales), and whose `related_to` back-reference is the order's id. -/
theorem order_ledger_entry :
    (∀ db u od po_id txn_id now db2 po,
       create_purchase_order db u od po_id txn_id now = Except.ok (db2, po) →
       db2.transactions = db.transactions ++
         [{ transaction_id := txn_id, date := od.date, type := "expense",
            category := "purchase", amount := po.total_amount,
            description := some ("Purchase order " ++ po_id), related_to := some po.po_id,
            created_by := u.user_id, created_at := now }])
    ∧ (∀ db u sd oid txn_id now db2 so,
       create_sales_order db u sd oid txn_id now = Except.ok (db2, so) →
       db2.transactions = db.transactions ++
         [{ transaction_id := txn_id, date := sd.date, type := "income",
            category := "sales", amount := so.total_amount,
            description := some ("Sales order " ++ oid), related_to := some so.order_id,
            created_by := u.user_id, created_at := now }]) := by
  constructor
  · intro db u od po_id txn_id now db2 po h
    obtain ⟨hpo, hdb⟩ := create_purchase_order_ok db u od po_id txn_id now db2 po h
    subst hpo
    subst hdb
    rfl
  · intro db u sd oid txn_id now db2 so h
    obtain ⟨-, hso, hdb⟩ := create_sales_order_ok db u sd oid txn_id now db2 so h
    subst hso
    subst hdb
    rfl

unseal Rat.mul Rat.add in
theorem order_ledger_entry_witness :
    purchasedDB.transactions = stockDB.transactions ++
      [{ transaction_id := "t1", date := 3, type := "expense", category := "purchase",
         amount := purchasedPO.total_amount, description := some ("Purchase order " ++ "po1"),
         related_to := some purchasedPO.po_id, created_by := "u1", created_at := 7 }]
    ∧ soldDB.transactions = stockDB.transactions ++
      [{ transaction_id := "t1", date := 3, type := "income", category := "sales",
         amount := soldSO.total_amount, description := some ("Sales order " ++ "so1"),
         related_to := some soldSO.order_id, created_by := "u1", created_at := 7 }] :=
  ⟨order_ledger_entry.1 stockDB mgrUser ⟨"s1", 3, [⟨"p1", none, 4, 2, 0⟩]⟩ "po1" "t1" 7
      purchasedDB purchasedPO (by decide),
   order_ledger_entry.2 stockDB mgrUser ⟨none, 3, "normal", [⟨"p1", none, 4, 2, 0⟩]⟩
      "so1" "t1" 7 soldDB soldSO (by decide)⟩

/-! ## Order totals are computed, not copied (claim C5) -/

theorem orderTotal_scrub (c : Rat) :
    ∀ l : List OrderItem, orderTotal (l.map (fun i => { i with total := c })) = orderTotal l := by
  intro l
  induction l with
  | nil => rfl
  | cons i t ih => simp [orderTotal] at ih ⊢; exact ih

theorem itemsWithNames_scrub (db : DB) (c : Rat) :
    ∀ l : List OrderItem,
      itemsWithNames db (l.map (fun i => { i with total := c })) = itemsWithNames db l := by
  intro l
  induction l with
  | nil => rfl
  | cons i t ih => simp [itemsWithNames] at ih ⊢

theorem stockCheckError_scrub (db : DB) (c : Rat) :
    ∀ l : List OrderItem,
      stockCheckError db (l.map (fun i => { i with total := c })) = stockCheckError db l := by
  intro l
  induction l with
  | nil => rfl
  | cons i t ih => simp [stockCheckError, ih]

theorem foldl_purchase_scrub (now : Nat) (c : Rat) :
    ∀ (l : List OrderItem) (inv : List InventoryRecord),
      (l.map (fun i => { i with total := c })).foldl
          (fun a i => inventoryAdjust i.product_id i.quantity now true a) inv
        = l.foldl (fun a i => inventoryAdjust i.product_id i.quantity now true a) inv := by
  intro l
  induction l with
  | nil => intro inv; rfl
  | cons i t ih => intro inv; simp only [List.map_cons, List.foldl_cons]; exact ih _

theorem foldl_sales_scrub (now : Nat) (c : Rat) :
    ∀ (l : List OrderItem) (inv : List InventoryRecord),
      (l.map (fun i => { i with total := c })).foldl
          (fun a i => inventoryAdjust i.product_id (-i.quantity) now false a) inv
        = l.foldl (fun a i => inventoryAdjust i.product_id (-i.quantity) now false a) inv := by
  intro l
  induction l with
  | nil => intro inv; rfl
  | cons i t ih => intro inv; simp only [List.map_cons, List.foldl_cons]; exact ih _

/-- C5: for every committed order the stored `total_amount` is
`sum(quantity * unit_price)` over the request items, each stored line is
the request line with its `total` recomputed as `quantity * unit_price`
(and its name resolved from the catalog), and the client-supplied `total`
field is irrelevant: overwriting every incoming `total` with an arbitrary
value leaves the handler's entire result unchanged. -/
theorem order_totals_computed :
    (∀ db u od po_id txn_id now db2 po,
       create_purchase_order db u od po_id txn_id now = Except.ok (db2, po) →
       po.total_amount = ((od.items.map (fun i => (i.quantity : Rat) * i.unit_price)).sum)
       ∧ po.items = od.items.map (fun i =>
           { i with
             product_name := (db.products.find? (fun p => p.product_id == i.product_id)).map
               (fun p => p.name)
             total := (i.quantity : Rat) * i.unit_price }))
    ∧ (∀ db u sd oid txn_id now db2 so,
       create_sales_order db u sd oid txn_id now = Except.ok (db2, so) →
       so.total_amount = ((sd.items.map (fun i => (i.quantity : Rat) * i.unit_price)).sum)
       ∧ so.items = sd.items.map (fun i =>
           { i with
             product_name := (db.products.find? (fun p => p.product_id == i.product_id)).map
               (fun p => p.name)
             total := (i.quantity : Rat) * i.unit_price }))
    ∧ (∀ db u od po_id txn_id now (c : Rat),
       create_purchase_order db u
           { od with items := od.items.map (fun i => { i with total := c }) } po_id txn_id now
         = create_purchase_order db u od po_id txn_id now)
    ∧ (∀ db u sd oid txn_id now (c : Rat),
       create_sales_order db u
           { sd with items := sd.items.map (fun i => { i with total := c }) } oid txn_id now
         = create_sales_order db u sd oid txn_id now) := by
  refine ⟨?_, ?_, ?_, ?_⟩
  · intro db u od po_id txn_id now db2 po h
    obtain ⟨hpo, -⟩ := create_purchase_order_ok db u od po_id txn_id now db2 po h
    subst hpo
    exact ⟨rfl, rfl⟩
  · intro db u sd oid txn_id now db2 so h
    obtain ⟨-, hso, -⟩ := create_sales_order_ok db u sd oid txn_id now db2 so h
    subst hso
    exact ⟨rfl, rfl⟩
  · intro db u od po_id txn_id now c
    by_cases hr : u.role ∈ (["manager", "admin"] : List String) <;>
      simp [create_purchase_order, require_role, hr, orderTotal_scrub,
        itemsWithNames_scrub, foldl_purchase_scrub]
  · intro db u sd oid txn_id now c
    rw [create_sales_order, create_sales_order, stockCheckError_scrub]
    cases stockCheckError db sd.items with
    | some e => rfl
    | none =>
      simp [orderTotal_scrub, itemsWithNames_scrub, foldl_sales_scrub]

unseal Rat.mul Rat.add in
theorem order_totals_computed_witness :
    purchasedPO.total_amount
      = ((([⟨"p1", none, 4, 2, 0⟩] : List OrderItem).map
          (fun i => (i.quantity : Rat) * i.unit_price)).sum)
    ∧ create_purchase_order stockDB mgrUser ⟨"s1", 3, [⟨"p1", none, 4, 2, 42⟩]⟩ "po1" "t1" 7
        = create_purchase_order stockDB mgrUser ⟨"s1", 3, [⟨"p1", none, 4, 2, 0⟩]⟩ "po1" "t1" 7 :=
  ⟨(order_totals_computed.1 stockDB mgrUser ⟨"s1", 3, [⟨"p1", none, 4, 2, 0⟩]⟩ "po1" "t1" 7
      purchasedDB purchasedPO (by decide)).1,
   order_totals_computed.2.2.1 stockDB mgrUser ⟨"s1", 3, [⟨"p1", none, 4, 2, 0⟩]⟩ "po1" "t1" 7 42⟩

/-! ## SKU uniqueness at product creation (claim C6) -/

/-- C6: for a caller passing the role gate, creating a product whose SKU
is already taken fails with the 400 conflict error and leaves the state
untouched, while creating a product with a fresh SKU appends, in the one
returned state, both the product record and a zero-quantity stock record
for the new product id. -/
theorem create_product_sku_unique :
    (∀ db u pd pid now, u.role ∈ (["manager", "admin"] : List String) →
       (∃ p ∈ db.products, p.sku = pd.sku) →
       create_product db u pd pid now
         = Except.error (ApiError.badRequest "SKU already exists", db))
    ∧ (∀ db u pd pid now, u.role ∈ (["manager", "admin"] : List String) →
       (∀ p ∈ db.products, p.sku ≠ pd.sku) →
       create_product db u pd pid now = Except.ok
         ({ db with
            products := db.products ++
              [⟨pid, pd.sku, pd.name, pd.category_id, pd.type_id, pd.status⟩],
            inventory := db.inventory ++ [⟨pid, 0, now⟩] },
          ⟨pid, pd.sku, pd.name, pd.category_id, pd.type_id, pd.status⟩)) := by
  constructor
  · intro db u pd pid now hr hex
    obtain ⟨p, hmem, hsku⟩ := hex
    cases hfind : db.products.find? (fun q => q.sku == pd.sku) with
    | none =>
      rw [List.find?_eq_none] at hfind
      have := hfind p hmem
      simp [hsku] at this
    | some q =>
      simp [create_product, require_role, hr, hfind]
  · intro db u pd pid now hr hall
    have hfind : db.products.find? (fun q => q.sku == pd.sku) = none := by
      rw [List.find?_eq_none]
      intro q hq
      simpa using hall q hq
    simp [create_product, require_role, hr, hfind]

theorem create_product_sku_unique_witness :
    create_product widgetOnlyDB mgrUser ⟨"X1", "W2", "c1", "t1", "active"⟩ "p9" 4
      = Except.error (ApiError.badRequest "SKU already exists", widgetOnlyDB)
    ∧ create_product emptyDB mgrUser ⟨"X1", "Widget", "c1", "t1", "active"⟩ "p1" 4
      = Except.ok
        ({ emptyDB with
           products := [⟨"p1", "X1", "Widget", "c1", "t1", "active"⟩],
           inventory := [⟨"p1", 0, 4⟩] },
         ⟨"p1", "X1", "Widget", "c1", "t1", "active"⟩) :=
  ⟨create_product_sku_unique.1 widgetOnlyDB mgrUser ⟨"X1", "W2", "c1", "t1", "active"⟩ "p9" 4
      (by decide) (by decide),
   create_product_sku_unique.2 emptyDB mgrUser ⟨"X1", "Widget", "c1", "t1", "active"⟩ "p1" 4
      (by decide) (by decide)⟩

/-! ## Insufficient stock rejection (claim C1) -/

/-- The first order item whose requested quantity exceeds the available
stock, if any. -/
def firstShort (db : DB) (items : List OrderItem) : Option OrderItem :=
  items.find? (fun i => decide (getQuantity db.inventory i.product_id < i.quantity))

theorem stockCheckError_of_firstShort (db : DB) :
    ∀ (items : List OrderItem) (i : OrderItem), firstShort db items = some i →
      getQuantity db.inventory i.product_id < i.quantity
      ∧ stockCheckError db items = some (ApiError.badRequest
          (insufficientStockMsg db i.product_id (getQuantity db.inventory i.product_id))) := by
  intro items
  induction items with
  | nil => intro i h; simp [firstShort] at h
  | cons j t ih =>
    intro i h
    by_cases hj : getQuantity db.inventory j.product_id < j.quantity
    · have hji : j = i := by simpa [firstShort, List.find?_cons, hj] using h
      subst hji
      exact ⟨hj, by simp [stockCheckError, hj]⟩
    · have ht : firstShort db t = some i := by
        simpa [firstShort, List.find?_cons, hj] using h
      obtain ⟨h1, h2⟩ := ih i ht
      exact ⟨h1, by simp [stockCheckError, hj, h2]⟩

/-- Amended C1: whenever some item of a sales-order request asks for more
than the available stock, the request fails before any mutation — the
returned state is the input state, so no order record, stock change or
ledger entry is made — with a 400 error for the *first* such item whose
detail reports the product's display name (the product id only when the
product is unknown) and the available quantity.  The requested quantity
is not part of the error. -/
theorem insufficient_stock_rejects :
    (∀ (db : DB) (items : List OrderItem),
       (∃ i ∈ items, getQuantity db.inventory i.product_id < i.quantity) →
       (firstShort db items).isSome = true)
    ∧ (∀ db u sd oid txn_id now i, firstShort db sd.items = some i →
       getQuantity db.inventory i.product_id < i.quantity
       ∧ create_sales_order db u sd oid txn_id now = Except.error
           (ApiError.badRequest (insufficientStockMsg db i.product_id
             (getQuantity db.inventory i.product_id)), db)) := by
  constructor
  · intro db items hex
    obtain ⟨i, hmem, hlt⟩ := hex
    simp only [firstShort, List.find?_isSome]
    exact ⟨i, hmem, by simpa using hlt⟩
  · intro db u sd oid txn_id now i h
    obtain ⟨h1, h2⟩ := stockCheckError_of_firstShort db sd.items i h
    exact ⟨h1, by simp [create_sales_order, h2]⟩

/-- Catalog with product `p1` named `Widget` and 3 units in stock. -/
def lowStockDB : DB :=
  { emptyDB with
    products := [⟨"p1", "X1", "Widget", "c1", "t1", "active"⟩],
    inventory := [⟨"p1", 3, 0⟩] }

theorem insufficient_stock_rejects_witness :
    (firstShort lowStockDB [⟨"p1", none, 5, 2, 0⟩]).isSome = true
    ∧ (getQuantity lowStockDB.inventory "p1" < (5 : Int)
       ∧ create_sales_order lowStockDB mgrUser ⟨none, 0, "normal", [⟨"p1", none, 5, 2, 0⟩]⟩
           "so1" "t1" 9 = Except.error
             (ApiError.badRequest (insufficientStockMsg lowStockDB "p1"
               (getQuantity lowStockDB.inventory "p1")), lowStockDB)) :=
  ⟨insufficient_stock_rejects.1 lowStockDB [⟨"p1", none, 5, 2, 0⟩] (by decide),
   insufficient_stock_rejects.2 lowStockDB mgrUser ⟨none, 0, "normal", [⟨"p1", none, 5, 2, 0⟩]⟩
     "so1" "t1" 9 ⟨"p1", none, 5, 2, 0⟩ (by decide)⟩

/-- Counterexample to C1 as stated: two sales orders that differ only in
the requested quantity (5 vs 7 units of `p1`, 3 available) produce the
*identical* error value — the detail string carries the product name
`Widget` (not the product id `p1`) and the available quantity 3, and does
not report the requested quantity at all. -/
theorem insufficient_stock_detail_counterexample :
    create_sales_order lowStockDB mgrUser ⟨none, 0, "normal", [⟨"p1", none, 5, 2, 0⟩]⟩
        "so1" "t1" 9
      = Except.error (ApiError.badRequest "Insufficient stock for Widget. Available: 3", lowStockDB)
    ∧ create_sales_order lowStockDB mgrUser ⟨none, 0, "normal", [⟨"p1", none, 7, 2, 0⟩]⟩
        "so1" "t1" 9
      = Except.error (ApiError.badRequest "Insufficient stock for Widget. Available: 3", lowStockDB) :=
  ⟨by decide, by decide⟩

/-! ## Absent request validation (claim C2) -/

/-- The (empty) purchase order committed against `emptyDB`. -/
def emptyPurchasePO : PurchaseOrder := ⟨"po1", "sup1", 0, [], 0, "unpaid", 0, "u1", 2⟩

/-- Resulting state of the empty purchase order. -/
def emptyPurchaseDB : DB :=
  { emptyDB with
    purchase_orders := [emptyPurchasePO],
    transactions := [⟨"t1", 0, "expense", "purchase", 0,
      some "Purchase order po1", some "po1", "u1", 2⟩] }

/-- The purchase order for a nonexistent product with negative quantity
and negative unit price, as committed against `emptyDB`. -/
def ghostPurchasePO : PurchaseOrder :=
  ⟨"po2", "sup1", 0, [⟨"ghost", none, -2, -3, 6⟩], 6, "unpaid", 0, "u1", 2⟩

/-- Resulting state of the `ghost` purchase order: a stock record of -2
units is even created for the nonexistent product. -/
def ghostPurchaseDB : DB :=
  { emptyDB with
    inventory := [⟨"ghost", -2, 2⟩],
    purchase_orders := [ghostPurchasePO],
    transactions := [⟨"t2", 0, "expense", "purchase", 6,
      some "Purchase order po2", some "po2", "u1", 2⟩] }

/-- The (empty) sales order committed against `emptyDB`. -/
def emptySaleSO : SalesOrder := ⟨"so1", none, 0, "normal", [], 0, "unpaid", 0, "u1", 2⟩

/-- Resulting state of the empty sales order. -/
def emptySaleDB : DB :=
  { emptyDB with
    sales_orders := [emptySaleSO],
    transactions := [⟨"t3", 0, "income", "sales", 0,
      some "Sales order so1", some "so1", "u1", 2⟩] }

unseal Rat.mul Rat.add in
/-- C2 names validation the code does not perform: evaluating the
handlers at the claimed failing inputs shows that an *empty* purchase
order, a purchase order whose single item references a nonexistent
product with quantity -2 and unit price -3, and an empty sales order all
commit successfully — each creates an order record and a ledger entry,
and the `ghost` order even writes a negative stock record — instead of
being rejected with `EmptyOrder` / `UnknownProduct` / `InvalidQuantity`
/ `InvalidPrice`. -/
theorem missing_validation_eval :
    create_purchase_order emptyDB mgrUser ⟨"sup1", 0, []⟩ "po1" "t1" 2
      = Except.ok (emptyPurchaseDB, emptyPurchasePO)
    ∧ create_purchase_order emptyDB mgrUser ⟨"sup1", 0, [⟨"ghost", none, -2, -3, 99⟩]⟩ "po2" "t2" 2
      = Except.ok (ghostPurchaseDB, ghostPurchasePO)
    ∧ getQuantity ghostPurchaseDB.inventory "ghost" = -2
    ∧ create_sales_order emptyDB mgrUser ⟨none, 0, "normal", []⟩ "so1" "t3" 2
      = Except.ok (emptySaleDB, emptySaleSO) :=
  ⟨by decide, by decide, by decide, by decide⟩

/-! ## Role policy (claim C9) -/

theorem stockCheckError_badRequest (db : DB) :
    ∀ (items : List OrderItem) (e : ApiError), stockCheckError db items = some e →
      ∃ s, e = ApiError.badRequest s := by
  intro items
  induction items with
  | nil => intro e h; simp [stockCheckError] at h
  | cons i t ih =>
    intro e h
    by_cases hi : getQuantity db.inventory i.product_id < i.quantity
    · refine ⟨insufficientStockMsg db i.product_id (getQuantity db.inventory i.product_id), ?_⟩
      simpa [stockCheckError, hi] using h.symm
    · exact ih e (by simpa [stockCheckError, hi] using h)

/-- C9: purchase-order creation and every catalog mutation (category
create/update/delete, product-type create, product create/update) are
rejected with the 403 permission error — leaving the state untouched —
whenever the caller's role is neither manager nor admin; sales-order
creation never produces a permission error for any caller; user listing
and role changes are rejected with the permission error whenever the
caller is not an admin. -/
theorem role_policy :
    (∀ (db : DB) (u : User) (od : PurchaseOrderCreate) (cd : CategoryCreate)
       (td : ProductTypeCreate) (pd : ProductCreate) (oid tid cid tyid pid : String) (now : Nat),
       u.role ∉ (["manager", "admin"] : List String) →
       create_purchase_order db u od oid tid now
           = Except.error (ApiError.insufficientPermissions, db)
       ∧ create_category db u cd cid = Except.error (ApiError.insufficientPermissions, db)
       ∧ update_category db u cid cd = Except.error (ApiError.insufficientPermissions, db)
       ∧ delete_category db u cid = Except.error (ApiError.insufficientPermissions, db)
       ∧ create_product_type db u td tyid = Except.error (ApiError.insufficientPermissions, db)
       ∧ create_product db u pd pid now = Except.error (ApiError.insufficientPermissions, db)
       ∧ update_product db u pid pd = Except.error (ApiError.insufficientPermissions, db))
    ∧ (∀ (db : DB) (u : User) (sd : SalesOrderCreate) (oid tid : String) (now : Nat)
       (e : ApiError) (db2 : DB),
       create_sales_order db u sd oid tid now = Except.error (e, db2) →
       e ≠ ApiError.insufficientPermissions)
    ∧ (∀ (db : DB) (u : User) (uid rl : String),
       u.role ≠ "admin" →
       get_users db u = Except.error ApiError.insufficientPermissions
       ∧ update_user_role db u uid rl = Except.error (ApiError.insufficientPermissions, db)) := by
  refine ⟨?_, ?_, ?_⟩
  · intro db u od cd td pd oid tid cid tyid pid now hr
    refine ⟨?_, ?_, ?_, ?_, ?_, ?_, ?_⟩ <;>
      simp [create_purchase_order, create_category, update_category, delete_category,
        create_product_type, create_product, update_product, require_role, hr]
  · intro db u sd oid tid now e db2 h
    cases hsc : stockCheckError db sd.items with
    | none => simp [create_sales_order, hsc] at h
    | some e2 =>
      simp [create_sales_order, hsc] at h
      obtain ⟨s, hs⟩ := stockCheckError_badRequest db sd.items e2 hsc
      rw [← h.1, hs]
      simp
  · intro db u uid rl hr
    exact ⟨by simp [get_users, require_role, hr],
      by simp [update_user_role, require_role, hr]⟩

/-- An employee-role caller. -/
def empUser : User := ⟨"u2", "e@example.com", "E", "employee"⟩

theorem role_policy_witness :
    (create_purchase_order emptyDB empUser ⟨"s1", 0, []⟩ "po1" "t1" 0
        = Except.error (ApiError.insufficientPermissions, emptyDB)
      ∧ create_category emptyDB empUser ⟨"c", none⟩ "c1"
        = Except.error (ApiError.insufficientPermissions, emptyDB)
      ∧ update_category emptyDB empUser "c1" ⟨"c", none⟩
        = Except.error (ApiError.insufficientPermissions, emptyDB)
      ∧ delete_category emptyDB empUser "c1"
        = Except.error (ApiError.insufficientPermissions, emptyDB)
      ∧ create_product_type emptyDB empUser ⟨"t", "c1"⟩ "ty1"
        = Except.error (ApiError.insufficientPermissions, emptyDB)
      ∧ create_product emptyDB empUser ⟨"sk", "n", "c1", "t1", "active"⟩ "p1" 0
        = Except.error (ApiError.insufficientPermissions, emptyDB)
      ∧ update_product emptyDB empUser "p1" ⟨"sk", "n", "c1", "t1", "active"⟩
        = Except.error (ApiError.insufficientPermissions, emptyDB))
    ∧ ApiError.badRequest "Insufficient stock for Widget. Available: 3"
        ≠ ApiError.insufficientPermissions
    ∧ (get_users emptyDB mgrUser = Except.error ApiError.insufficientPermissions
       ∧ update_user_role emptyDB mgrUser "u9" "manager"
         = Except.error (ApiError.insufficientPermissions, emptyDB)) :=
  ⟨role_policy.1 emptyDB empUser ⟨"s1", 0, []⟩ ⟨"c", none⟩ ⟨"t", "c1"⟩
      ⟨"sk", "n", "c1", "t1", "active"⟩ "po1" "t1" "c1" "ty1" "p1" 0 (by decide),
   role_policy.2.1 lowStockDB empUser ⟨none, 0, "normal", [⟨"p1", none, 5, 2, 0⟩]⟩ "so1" "t1" 9
      (ApiError.badRequest "Insufficient stock for Widget. Available: 3") lowStockDB (by decide),
   role_policy.2.2 emptyDB mgrUser "u9" "manager" (by decide)⟩
